import Mathlib

/-!
Shallow embedding of the paper-reader pipeline (src/app.py).

Python strings are modelled as `List Char`; machine text therefore supports the
slicing (`List.take`) and concatenation (`++`) the source uses.  Calls to the
remote generative-AI service are modelled through a small state
(`GenaiState`, the set of live uploaded attachments) and oracle parameters for
the network responses (the state trace reported by the polling capability, the
outcome of a generation request).  Fallible Python code returns `Except` /
`ExecResult`; a poll loop that may never finish is given fuel, `none` meaning
the loop is still running when the fuel runs out.
-/

/-- src/app.py line 20: maximum character count for the text body. -/
def truncate_len : Nat := 30000

/-- Whether the character list `w` stands at the front of the second list. -/
def hasAtFront : List Char → List Char → Bool
  | [], _ => true
  | _ :: _, [] => false
  | w :: ws, c :: cs => if w = c then hasAtFront ws cs else false

/-- Whether `word` occurs (contiguously) anywhere inside the second list. -/
def occursIn (word : List Char) : List Char → Bool
  | [] => word.isEmpty
  | c :: rest => hasAtFront word (c :: rest) || occursIn word rest

/-- Modelled from the spec: `get_text_before_word` is imported from `llm_utils`,
which is not among the analysed sources.  Spec §4.5(a) specifies truncation at
the first literal occurrence of the configurable stop-marker string, keeping
only the text before it; when the marker is absent the text is returned
unchanged. -/
def get_text_before_word (text : List Char) (word : List Char) : List Char :=
  match text with
  | [] => []
  | c :: rest => if hasAtFront word (c :: rest) then [] else c :: get_text_before_word rest word

/-- The stop marker used by every text-body summary strategy
(src/app.py lines 299, 355, 435). -/
def referencesMarker : List Char := "References".toList

/-- The Content Budgeter applied by the text-body summary strategies
(src/app.py lines 298-301 and 354-357): cut at the stop marker, then
hard-truncate to `truncate_len` characters. -/
def budget_text (t : List Char) : List Char :=
  (get_text_before_word t referencesMarker).take truncate_len

/-- The fixed Ochiai-method report template (src/app.py lines 259-275, 308-324,
447-463). -/
def ochiai_format_template : List Char :=
  ("あなたは優秀な研究者です。提供された論文の画像を元に以下のフォーマットに従って論文の解説を行ってください。\n\n# \x7b論文タイトル\x7d\n\ndate: \x7bYYYY-MM-DD\x7d\ncategories: \x7b論文のカテゴリ\x7d\n\n## 1. どんなもの？\n## 2. 先行研究と比べてどこがすごいの？\n## 3. 技術や手法の\"キモ\"はどこにある？\n## 4. どうやって有効だと検証した？\n## 5. 議論はあるか？\n## 6. 次に読むべき論文はあるか？\n## 7. 想定される質問と回答\n## 論文情報・リンク\n- [著者，\"タイトル，\" ジャーナル名 voluem no.，ページ，年](論文リンク)\n").toList

/-- One message of the chat-style request sent to the local inference endpoint. -/
structure ChatMessage where
  role : List Char
  content : List Char
deriving DecidableEq

/-- System message content of the local strategy (src/app.py lines 447-465):
the template followed by the interpolated paper URL (adjacent Python string
literals concatenate). -/
def local_system_content (arxiv_url : List Char) : List Char :=
  ochiai_format_template ++ ("論文URL: ".toList) ++ arxiv_url

/-- User message content of the local strategy (src/app.py lines 466-472). -/
def local_user_content (arxiv_url : List Char) (pdf_text : List Char) : List Char :=
  ("論文URL: ".toList) ++ arxiv_url ++ ("\n以下が論文の内容です\n\n---\n".toList) ++ pdf_text
    ++ ("\n---\n論文の解説はMarkdown形式かつ日本語で記述してください。".toList)

/-- The request built by `generate_paper_summary_ochiai_text_local`
(src/app.py lines 434-473): the document text is cut at the stop marker and
then truncated to 10000 characters before being embedded in the single user
turn of the chat request. -/
def generate_paper_summary_ochiai_text_local_request (pdf_text arxiv_url : List Char) :
    List ChatMessage :=
  let pdf_text := get_text_before_word pdf_text referencesMarker
  let pdf_text := pdf_text.take 10000
  [⟨("system".toList), local_system_content arxiv_url⟩,
   ⟨("user".toList), local_user_content arxiv_url pdf_text⟩]

/-- Live state of the remote generative-AI file store: the next fresh handle and
the handles currently uploaded (acquired and not yet released). -/
structure GenaiState where
  nextId : Nat
  uploaded : List Nat
deriving DecidableEq

/-- Model of `genai.upload_file`: acquires a fresh attachment handle. -/
def upload_file (st : GenaiState) : Nat × GenaiState :=
  (st.nextId, ⟨st.nextId + 1, st.uploaded ++ [st.nextId]⟩)

/-- Model of `genai.delete_file`: releases a handle. -/
def delete_file (h : Nat) (st : GenaiState) : GenaiState :=
  ⟨st.nextId, st.uploaded.erase h⟩

/-- Fixed sleep between readiness polls (src/app.py lines 194, 228, 375). -/
def poll_interval_seconds : Nat := 5

/-- Python-level failures surfaced by the embedding. -/
inductive PyError where
  | genFailure
  | unboundLocal (v : String)
deriving DecidableEq

/-- Outcome of running an orchestration function: a returned value, a
propagating Python exception, or a loop still running when the fuel ran out. -/
inductive ExecResult (α : Type) where
  | ok (a : α)
  | exn (e : PyError)
  | hang
deriving DecidableEq

/-- One element of the parts list handed to `generate_content`: a plain text
part, a File object passed directly (a genuine attachment), or a text part made
by interpolating a File object into an f-string (src/app.py line 410). -/
inductive ReqPart where
  | text (s : List Char)
  | file (handle : Nat)
  | fileText (name : List Char) (handle : Nat)
deriving DecidableEq

/-- The readiness poll loop of the per-region explanation functions
(src/app.py lines 192-195 and 226-229): each iteration sleeps 5 seconds and
re-queries the file via `genai.get_file`.  `stateAt k` is the state string the
service reports at the k-th query (k = 0 is the snapshot returned by the
upload); the fuel bounds the modelled iterations, `none` meaning the loop was
still running. -/
def pollLoop (stateAt : Nat → String) : Nat → Nat → Option Nat
  | 0, k => if stateAt k = "PROCESSING" then none else some k
  | fuel + 1, k => if stateAt k = "PROCESSING" then pollLoop stateAt fuel (k + 1) else some k

/-- The readiness poll loop of `generate_paper_summary_ochiai_text_formula`
(src/app.py lines 373-375): the body only prints and sleeps — it never
re-queries the service — so the condition is evaluated against the same
snapshot string forever. -/
def brokenPollLoop : Nat → String → Option Unit
  | 0, s => if s = "PROCESSING" then none else some ()
  | fuel + 1, s => if s = "PROCESSING" then brokenPollLoop fuel s else some ()

/-- Parts list of the generation request of `generate_image_explanation`
(src/app.py lines 196-201). -/
def explainImagePromptParts (pdf_text : List Char) (handle : Nat) : List ReqPart :=
  [ ReqPart.text (("論文から抽出したテキスト情報は以下です:\n".toList) ++ pdf_text
      ++ ("\n\n提供された論文の画像の示す意味を説明してください。".toList)),
    ReqPart.text ("これは論文から抽出した画像です".toList),
    ReqPart.file handle,
    ReqPart.text ("説明はMarkdown形式かつ日本語で記述してください。".toList) ]

/-- Parts list of the generation request of `generate_formula_explanation`
(src/app.py lines 230-235). -/
def explainFormulaPromptParts (pdf_text : List Char) (handle : Nat) : List ReqPart :=
  [ ReqPart.text (("あなたは優秀な研究者です。論文から抽出したテキスト情報は以下です:\n".toList) ++ pdf_text
      ++ ("\n\n提供された論文の数式部分の画像を提供するので、この数式の解説を行ってください".toList)),
    ReqPart.text ("これは論文から抽出した画像です".toList),
    ReqPart.file handle,
    ReqPart.text ("数式はmarkdown内で使え、LaTeX の記法を用いて数式を記述することができるmathjaxを用い$$で囲んでください。解説はMarkdown形式かつ日本語で記述してください。Markdownは```で囲まないでください".toList) ]

/-- `generate_image_explanation` (src/app.py lines 175-206): upload the crop,
poll until the service stops reporting PROCESSING, issue the generation
request, and — only after `generate_content` has returned normally — release
the attachment; an exception from the request propagates before the
`genai.delete_file` line is reached. -/
def generate_image_explanation (pdf_text : List Char) (stateAt : Nat → String) (fuel : Nat)
    (gen : List ReqPart → Except PyError (List Char)) (st : GenaiState) :
    ExecResult (List Char) × GenaiState :=
  let r := upload_file st
  match pollLoop stateAt fuel 0 with
  | none => (ExecResult.hang, r.2)
  | some _ =>
    match gen (explainImagePromptParts pdf_text r.1) with
    | Except.error e => (ExecResult.exn e, r.2)
    | Except.ok response => (ExecResult.ok response, delete_file r.1 r.2)

/-- `generate_formula_explanation` (src/app.py lines 209-240): same protocol as
`generate_image_explanation` with the formula-specific instruction. -/
def generate_formula_explanation (pdf_text : List Char) (stateAt : Nat → String) (fuel : Nat)
    (gen : List ReqPart → Except PyError (List Char)) (st : GenaiState) :
    ExecResult (List Char) × GenaiState :=
  let r := upload_file st
  match pollLoop stateAt fuel 0 with
  | none => (ExecResult.hang, r.2)
  | some _ =>
    match gen (explainFormulaPromptParts pdf_text r.1) with
    | Except.error e => (ExecResult.exn e, r.2)
    | Except.ok response => (ExecResult.ok response, delete_file r.1 r.2)

/-- A persisted region crop: path, base64 copy, and semantic label
(the dictionaries built in src/app.py lines 100-102 and 145-147). -/
structure Artifact where
  path : List Char
  base64 : List Char
  type : List Char
deriving DecidableEq

/-- The Ochiai template of the Text+Remote strategy, which additionally asks
for a key visual (src/app.py lines 381-399). -/
def ochiai_key_visual_template : List Char :=
  ochiai_format_template ++ ("## キービジュアル\n\x7b画像名\x7d\n".toList)

/-- Closing instruction part of the Text+Remote strategy
(src/app.py lines 411-413); the stray double quote after でください is in the
source string. -/
def key_visual_closing_instruction : List Char :=
  ("数式はmarkdown内で使え、LaTeX の記法を用いて数式を記述することができるmathjaxを用い$$で囲んでください。解説はMarkdown形式かつ日本語で記述してください。Markdownは```で囲まないでください\"\n\n論文の解説はMarkdown形式かつ日本語で記述してください。".toList)

/-- Observable outcome of one run of `generate_paper_summary_ochiai_text_formula`:
the returned value (or exception / still-running poll loop), the final service
state, and the parts list passed to `generate_content` when that call was
reached. -/
structure TFRun where
  result : ExecResult (List Char)
  state : GenaiState
  request : Option (List ReqPart)
deriving DecidableEq

/-- `generate_paper_summary_ochiai_text_formula` (src/app.py lines 343-420),
with the source's indentation kept: the for loop body holds only the upload, so
the poll / `sample_files.append` / `file_names.append` lines run once after the
loop on the last bound `sample_file` (for an empty list that name is unbound);
`stateAt h` is the snapshot state of handle `h` at upload, `nameOf h` its
remote name, and only the last handle is released after generation. -/
def generate_paper_summary_ochiai_text_formula (pdf_text : List Char) (images : List Artifact)
    (arxiv_url : List Char) (stateAt : Nat → String) (fuel : Nat) (nameOf : Nat → List Char)
    (gen : List ReqPart → Except PyError (List Char)) (st : GenaiState) : TFRun :=
  let pdf_text := get_text_before_word pdf_text referencesMarker
  let pdf_text := pdf_text.take truncate_len
  let acc := images.foldl (fun acc _image_data =>
      let r := upload_file acc.1
      (r.2, some r.1)) (st, (none : Option Nat))
  match acc.2 with
  | none => ⟨ExecResult.exn (PyError.unboundLocal ("sample_file")), acc.1, none⟩
  | some sample_file =>
    match brokenPollLoop fuel (stateAt sample_file) with
    | none => ⟨ExecResult.hang, acc.1, none⟩
    | some _ =>
      let sample_files := [sample_file]
      let file_names := [nameOf sample_file]
      let parts :=
        [ ReqPart.text (ochiai_key_visual_template ++ ("論文URL: ".toList) ++ arxiv_url),
          ReqPart.text (("論文URL: ".toList) ++ arxiv_url ++ ("\n以下が論文の内容です。\n\n---\n".toList)
            ++ pdf_text
            ++ ("\n---\n以下は論文から抽出した図、表、数式の画像です。必要であれば画像の情報を使って解説をしてください。また、この論文のキービジュアルを1枚選択し画像名を記入してください。".toList)) ]
        ++ (sample_files.zip file_names).map (fun fn => ReqPart.fileText fn.2 fn.1)
        ++ [ ReqPart.text key_visual_closing_instruction ]
      match gen parts with
      | Except.error e => ⟨ExecResult.exn e, acc.1, some parts⟩
      | Except.ok response => ⟨ExecResult.ok response, delete_file sample_file acc.1, some parts⟩

/-- Whether a request part carries (a reference to) an uploaded file. -/
def isFilePart : ReqPart → Bool
  | ReqPart.file _ => true
  | ReqPart.fileText _ _ => true
  | ReqPart.text _ => false

/-- Concrete input for C3: two region artifacts. -/
def c3_images : List Artifact :=
  [⟨("p1.jpg".toList), ("b1".toList), ("Figure".toList)⟩,
   ⟨("p2.jpg".toList), ("b2".toList), ("Equation".toList)⟩]

/-- Concrete C3 run: both uploads are immediately ACTIVE and generation
succeeds. -/
def c3_run : TFRun :=
  generate_paper_summary_ochiai_text_formula [] c3_images [] (fun _ => "ACTIVE") 0
    (fun h => (toString h).toList) (fun _ => Except.ok []) ⟨0, []⟩

/-- Reading a Python local variable: referencing a name that was never assigned
on the taken path raises UnboundLocalError. -/
def deref {α : Type} (v : Option α) (name : String) : Except PyError α :=
  match v with
  | some a => Except.ok a
  | none => Except.error (PyError.unboundLocal name)

/-- Model of `processing_mode_body.split('-')` unpacked into two names
(src/app.py line 515); the supplied tokens contain a single dash. -/
def splitDash (s : List Char) : List Char × List Char :=
  (s.takeWhile (fun c => ¬(c = '-')), (s.dropWhile (fun c => ¬(c = '-'))).drop 1)

/-- Heading opening the formula section of the report (src/app.py line 539). -/
def formula_section_header : List Char := "# 数式の説明\n\n".toList

/-- Heading opening the figure/table section of the report
(src/app.py line 548). -/
def figure_section_header : List Char := "# 図表の説明\n\n".toList

/-- One aggregated report entry (src/app.py lines 544 and 553): a numbered
heading, the inline base64 image, and the generated explanation. -/
def entry_text (heading : List Char) (i : Nat) (base64 : List Char)
    (explanation : List Char) : List Char :=
  ("## ".toList) ++ heading ++ (toString i).toList
    ++ ("\n\n![](data:image/jpg;base64,".toList) ++ base64 ++ (")\n\n".toList)
    ++ explanation ++ ("\n\n".toList)

/-- One `for i, data in enumerate(...)` explanation loop of `paper_reader`
(src/app.py lines 540-544 and 549-553): each iteration reads `pdf_text`
(raising if it is unbound), produces one explanation, appends one gallery pair
and one report entry.  The generation call is abstracted by the pure oracle
`explain`. -/
def explanation_loop (explain : Artifact → List Char → List Char) (heading : List Char)
    (pdf_text : Option (List Char)) :
    List Artifact → Nat → Except PyError (List Char × List (Artifact × List Char))
  | [], _ => Except.ok ([], [])
  | d :: rest, i =>
    match deref pdf_text ("pdf_text") with
    | Except.error e => Except.error e
    | Except.ok t =>
      let explanation := explain d t
      match explanation_loop explain heading pdf_text rest (i + 1) with
      | Except.error e => Except.error e
      | Except.ok (txt, gal) =>
        Except.ok (entry_text heading i d.base64 explanation ++ txt, (d, explanation) :: gal)

/-- The explanation-aggregation block of `paper_reader`
(src/app.py lines 534-554): empty for text_only, otherwise the formula section
followed — unless the mode is formula_only — by the figure/table section. -/
def explanation_section (processing_mode : List Char) (formula_data figures : List Artifact)
    (pdf_text : Option (List Char)) (explainF explainI : Artifact → List Char → List Char) :
    Except PyError (List Char × List (Artifact × List Char)) :=
  if processing_mode = ("text_only".toList) then Except.ok ([], [])
  else
    match explanation_loop explainF ("数式画像".toList) pdf_text formula_data 0 with
    | Except.error e => Except.error e
    | Except.ok (ftxt, fgal) =>
      let base := formula_section_header ++ ftxt
      if processing_mode ≠ ("formula_only".toList) then
        match explanation_loop explainI ("画像".toList) pdf_text figures 0 with
        | Except.error e => Except.error e
        | Except.ok (itxt, igal) =>
          Except.ok (base ++ figure_section_header ++ itxt, fgal ++ igal)
      else Except.ok (base, fgal)

/-- Summary output path (src/app.py line 556). -/
def summary_file_name (pdf_name : List Char) : List Char :=
  ("output/summary_".toList) ++ pdf_name ++ (".md".toList)

/-- Explanation-report output path, with the source's spelling
(src/app.py line 559). -/
def explaination_file_name (pdf_name : List Char) : List Char :=
  ("output/explaination_".toList) ++ pdf_name ++ (".md".toList)

/-- External collaborators of `paper_reader`, abstracted as pure oracles: the
regions the two detectors would return, the extracted text, the rasterized
pages, the per-region explanation capability and the three summary
strategies. -/
structure PaperReaderInputs where
  detected_formulas : List Artifact
  detected_figures : List Artifact
  extracted_text : List Char
  page_images : List (List Char)
  explain_formula : Artifact → List Char → List Char
  explain_image : Artifact → List Char → List Char
  summary_text_formula : List Char → List Artifact → List Char
  summary_image : List (List Char) → List Char
  summary_local : List Char → List Char

/-- The tuple `paper_reader` returns (src/app.py line 562) plus the list of
markdown files the run persisted (lines 556-560). -/
structure PaperReaderResult where
  pdf_file : Option (List Char)
  summary : List Char
  explaination_text : List Char
  gallery : List (Artifact × List Char)
  truncated_text : List Char
  written_files : List (List Char)

/-- `paper_reader` (src/app.py lines 483-562): formula regions are extracted
only for modes all/text_formula; figures/tables are always extracted; the body
mode token is split on the dash; `pdf_text` (resp. `images`) is assigned only
in the body_text (resp. body_image) branch; the selected summary strategy runs,
then the explanation block, then the two file writes, and the return value
reads `pdf_text` unconditionally. -/
def paper_reader (processing_mode processing_mode_body : List Char)
    (pdf_file : Option (List Char)) (pdf_name : List Char) (inp : PaperReaderInputs) :
    Except PyError PaperReaderResult :=
  let formula_data :=
    if processing_mode = ("all".toList) ∨ processing_mode = ("text_formula".toList)
    then inp.detected_formulas else []
  let figures_and_tables_data := inp.detected_figures
  let pb := splitDash processing_mode_body
  let processing_body := pb.1
  let llm_client := pb.2
  let pdf_text : Option (List Char) :=
    if processing_body = ("body_text".toList) then some inp.extracted_text else none
  let images : Option (List (List Char)) :=
    if processing_body = ("body_image".toList) then some inp.page_images else none
  match
    (if ("gemini".toList) = llm_client ∧ ("body_text".toList) = processing_body then
       (deref pdf_text ("pdf_text")).map
         (fun t => inp.summary_text_formula t (figures_and_tables_data ++ formula_data))
     else if ("gemini".toList) = llm_client ∧ ("body_image".toList) = processing_body then
       (deref images ("images")).map inp.summary_image
     else
       (deref pdf_text ("pdf_text")).map inp.summary_local) with
  | Except.error e => Except.error e
  | Except.ok paper_summary_ochiai =>
    match explanation_section processing_mode formula_data figures_and_tables_data pdf_text
        inp.explain_formula inp.explain_image with
    | Except.error e => Except.error e
    | Except.ok (explaination_text, gallery_data) =>
      let written := [summary_file_name pdf_name]
        ++ (if explaination_text = [] then [] else [explaination_file_name pdf_name])
      match deref pdf_text ("pdf_text") with
      | Except.error e => Except.error e
      | Except.ok t =>
        Except.ok ⟨pdf_file, paper_summary_ochiai, explaination_text, gallery_data,
          t.take truncate_len, written⟩

/-- Axis-aligned box on a page raster. -/
structure Rect where
  x1 : Int
  y1 : Int
  x2 : Int
  y2 : Int
deriving DecidableEq

/-- Per-edge pixel padding applied before cropping a detected region. -/
structure PadPolicy where
  left : Nat
  right : Nat
  top : Nat
  bottom : Nat
deriving DecidableEq

/-- `block.pad(left=..., right=..., top=..., bottom=...)`: expands a box by the
profile's offsets (the image y axis grows downward, so top padding lowers
`y1`). -/
def padRect (p : PadPolicy) (r : Rect) : Rect :=
  ⟨r.x1 - (p.left : Int), r.y1 - (p.top : Int), r.x2 + (p.right : Int), r.y2 + (p.bottom : Int)⟩

/-- Padding of the figure/table profile (src/app.py line 91). -/
def figure_table_padding : PadPolicy := ⟨5, 10, 15, 5⟩

/-- Padding of the formula profile (src/app.py line 136). -/
def formula_padding : PadPolicy := ⟨5, 5, 5, 5⟩

/-- Concrete input for C4: two detected formula regions, no figures, and pure
oracles for the inference services. -/
def c4_inputs : PaperReaderInputs :=
  ⟨[⟨("f1.jpg".toList), ("B1".toList), ("Equation".toList)⟩,
    ⟨("f2.jpg".toList), ("B2".toList), ("Equation".toList)⟩],
   [], ("T".toList), [], fun _ _ => ("E".toList), fun _ _ => ("E".toList),
   fun _ _ => ("S".toList), fun _ => [], fun _ => []⟩

/-- Concrete input for C8: a run in which zero regions were detected. -/
def c8_inputs : PaperReaderInputs :=
  ⟨[], [], ("T".toList), [], fun _ _ => [], fun _ _ => [],
   fun _ _ => ("S".toList), fun _ => [], fun _ => []⟩

theorem hasAtFront_self_append (w b : List Char) : hasAtFront w (w ++ b) = true := by
  induction w with
  | nil => rfl
  | cons c ws ih => simp [hasAtFront, ih]

theorem hasAtFront_append (w u s : List Char) (h : hasAtFront w u = true) :
    hasAtFront w (u ++ s) = true := by
  induction w generalizing u with
  | nil => rfl
  | cons c ws ih =>
    cases u with
    | nil => simp [hasAtFront] at h
    | cons d us =>
      simp only [hasAtFront, List.cons_append] at h ⊢
      by_cases hcd : c = d
      · simp only [hcd, if_pos] at h ⊢
        exact ih us h
      · simp [hcd] at h

theorem get_text_before_word_of_front (t w : List Char) (h : hasAtFront w t = true) :
    get_text_before_word t w = [] := by
  cases t with
  | nil => rfl
  | cons c rest => simp [get_text_before_word, h]

theorem get_text_before_word_front (t w : List Char) :
    ∃ s, get_text_before_word t w ++ s = t := by
  induction t with
  | nil => exact ⟨[], rfl⟩
  | cons c rest ih =>
    by_cases h : hasAtFront w (c :: rest) = true
    · exact ⟨c :: rest, by simp [get_text_before_word, h]⟩
    · obtain ⟨s, hs⟩ := ih
      exact ⟨s, by simp [get_text_before_word, h, hs]⟩

theorem occursIn_get_text_before_word (t w : List Char) (hw : w ≠ []) :
    occursIn w (get_text_before_word t w) = false := by
  induction t with
  | nil =>
    cases w with
    | nil => exact absurd rfl hw
    | cons _ _ => rfl
  | cons c rest ih =>
    by_cases h : hasAtFront w (c :: rest) = true
    · rw [get_text_before_word_of_front _ _ h]
      cases w with
      | nil => exact absurd rfl hw
      | cons _ _ => rfl
    · have hfalse : hasAtFront w (c :: get_text_before_word rest w) = false := by
        by_contra hx
        rw [Bool.not_eq_false] at hx
        obtain ⟨s, hs⟩ := get_text_before_word_front rest w
        have hy : hasAtFront w ((c :: get_text_before_word rest w) ++ s) = true :=
          hasAtFront_append _ _ _ hx
        rw [List.cons_append, hs] at hy
        exact h hy
      simp [get_text_before_word, h, occursIn, hfalse, ih]

theorem get_text_before_word_of_not_occurs (t w : List Char) (h : occursIn w t = false) :
    get_text_before_word t w = t := by
  induction t with
  | nil => rfl
  | cons c rest ih =>
    simp only [occursIn, Bool.or_eq_false_iff] at h
    simp [get_text_before_word, h.1, ih h.2]

theorem occursIn_append_left (w a s : List Char) (h : occursIn w a = true) :
    occursIn w (a ++ s) = true := by
  induction a with
  | nil =>
    have hw : w = [] := by
      cases w with
      | nil => rfl
      | cons _ _ => simp [occursIn, List.isEmpty] at h
    subst hw
    cases s with
    | nil => rfl
    | cons d ds => simp [occursIn, hasAtFront]
  | cons c rest ih =>
    simp only [occursIn, Bool.or_eq_true] at h ⊢
    rcases h with h | h
    · exact Or.inl (by simpa [List.cons_append] using hasAtFront_append w (c :: rest) s h)
    · exact Or.inr (by simpa [List.cons_append] using ih h)

theorem occursIn_take (w t : List Char) (n : Nat) (h : occursIn w t = false) :
    occursIn w (t.take n) = false := by
  cases hx : occursIn w (t.take n) with
  | false => rfl
  | true =>
    have hy := occursIn_append_left w (t.take n) (t.drop n) hx
    rw [List.take_append_drop] at hy
    rw [hy] at h
    cases h

theorem get_text_before_word_stops (a w b : List Char) :
    ∃ s, get_text_before_word (a ++ (w ++ b)) w ++ s = a := by
  induction a with
  | nil =>
    refine ⟨[], ?_⟩
    rw [List.nil_append, get_text_before_word_of_front _ _ (hasAtFront_self_append w b)]
    rfl
  | cons c a' ih =>
    by_cases hb : hasAtFront w (c :: (a' ++ (w ++ b))) = true
    · exact ⟨c :: a', by simp [List.cons_append, get_text_before_word, hb]⟩
    · obtain ⟨s, hs⟩ := ih
      exact ⟨s, by simp [List.cons_append, get_text_before_word, hb, hs]⟩

/-- C5: the Content Budgeter first cuts the text at the first literal
occurrence of the stop marker "References", then hard-truncates to at most
30000 characters; for text containing the marker followed by at least 30000
more characters, the output has length at most 30000, contains no occurrence
of the marker, and is an initial segment of the pre-marker text (it stops at
the marker). -/
theorem c5_budgeter_stop_marker (a b : List Char)
    (_h1 : occursIn referencesMarker a = false) (_h2 : 30000 ≤ b.length) :
    (budget_text (a ++ (referencesMarker ++ b))).length ≤ 30000
    ∧ occursIn referencesMarker (budget_text (a ++ (referencesMarker ++ b))) = false
    ∧ ∃ s, budget_text (a ++ (referencesMarker ++ b)) ++ s = a := by
  refine ⟨?_, ?_, ?_⟩
  · exact List.length_take_le _ _
  · exact occursIn_take _ _ _ (occursIn_get_text_before_word _ _ (by decide))
  · obtain ⟨s, hs⟩ := get_text_before_word_stops a referencesMarker b
    refine ⟨(get_text_before_word (a ++ (referencesMarker ++ b)) referencesMarker).drop truncate_len ++ s, ?_⟩
    rw [budget_text, ← List.append_assoc, List.take_append_drop, hs]

/-- Witness for C5 at a concrete input: pre-marker text "abc" and 30000
trailing characters after the marker. -/
theorem c5_witness :
    occursIn referencesMarker ("abc".toList) = false
    ∧ 30000 ≤ (List.replicate 30000 'x').length
    ∧ ((budget_text (("abc".toList) ++ (referencesMarker ++ List.replicate 30000 'x'))).length ≤ 30000
       ∧ occursIn referencesMarker (budget_text (("abc".toList) ++ (referencesMarker ++ List.replicate 30000 'x'))) = false
       ∧ ∃ s, budget_text (("abc".toList) ++ (referencesMarker ++ List.replicate 30000 'x')) ++ s = "abc".toList) :=
  ⟨by decide, le_of_eq (List.length_replicate 30000 'x').symm,
   c5_budgeter_stop_marker _ _ (by decide) (le_of_eq (List.length_replicate 30000 'x').symm)⟩

/-- C6: the Content Budgeter is idempotent — budgeting already-budgeted text
returns it unchanged. -/
theorem c6_budget_idempotent (t : List Char) : budget_text (budget_text t) = budget_text t := by
  have h1 : occursIn referencesMarker (get_text_before_word t referencesMarker) = false :=
    occursIn_get_text_before_word t referencesMarker (by decide)
  have h2 : occursIn referencesMarker ((get_text_before_word t referencesMarker).take truncate_len) = false :=
    occursIn_take _ _ _ h1
  show budget_text ((get_text_before_word t referencesMarker).take truncate_len) = _
  unfold budget_text
  rw [get_text_before_word_of_not_occurs _ _ h2, List.take_take, Nat.min_self]

/-- C7: under the Text+Local strategy the document text placed in the single
chat-style request (system instruction plus one user turn) is truncated to at
most 10000 characters before submission. -/
theorem c7_local_request_truncated (pdf_text arxiv_url : List Char) :
    ∃ t, generate_paper_summary_ochiai_text_local_request pdf_text arxiv_url
        = [⟨("system".toList), local_system_content arxiv_url⟩,
           ⟨("user".toList), local_user_content arxiv_url t⟩]
      ∧ t.length ≤ 10000 :=
  ⟨(get_text_before_word pdf_text referencesMarker).take 10000, rfl, List.length_take_le _ _⟩

theorem pollLoop_active (fuel : Nat) : pollLoop (fun _ => "ACTIVE") fuel 0 = some 0 := by
  cases fuel <;> rfl

/-- C1 fails as stated: on the exit path where the generation request raises,
the uploaded attachment is not released — after a failing
`generate_image_explanation` (resp. `generate_formula_explanation`) run from an
empty service state, handle 0 is still held. -/
theorem c1_counterexample :
    ((generate_image_explanation [] (fun _ => "ACTIVE") 0
        (fun _ => Except.error PyError.genFailure) ⟨0, []⟩).2.uploaded = [0])
    ∧ ((generate_formula_explanation [] (fun _ => "ACTIVE") 0
        (fun _ => Except.error PyError.genFailure) ⟨0, []⟩).2.uploaded = [0]) :=
  ⟨rfl, rfl⟩

/-- C1 (amended): in the per-region explanation functions the attachment
acquired in step (1) is released exactly when the generation request returns
normally — the count of live attachments returns to its prior value on
success and stays one higher (the handle leaks) when the request raises. -/
theorem c1_amended (pdf_text : List Char) (gen : List ReqPart → Except PyError (List Char))
    (st : GenaiState) :
    ((generate_image_explanation pdf_text (fun _ => "ACTIVE") 0 gen st).2.uploaded.length
       = match gen (explainImagePromptParts pdf_text st.nextId) with
         | Except.ok _ => st.uploaded.length
         | Except.error _ => st.uploaded.length + 1)
    ∧ ((generate_formula_explanation pdf_text (fun _ => "ACTIVE") 0 gen st).2.uploaded.length
       = match gen (explainFormulaPromptParts pdf_text st.nextId) with
         | Except.ok _ => st.uploaded.length
         | Except.error _ => st.uploaded.length + 1) := by
  have hmem : st.nextId ∈ st.uploaded ++ [st.nextId] := by simp
  constructor
  · unfold generate_image_explanation
    rw [pollLoop_active]
    cases hg : gen (explainImagePromptParts pdf_text st.nextId) with
    | error e => simp [upload_file, hg]
    | ok response =>
      simp only [upload_file, hg, delete_file]
      rw [List.length_erase_of_mem hmem, List.length_append]
      simp
  · unfold generate_formula_explanation
    rw [pollLoop_active]
    cases hg : gen (explainFormulaPromptParts pdf_text st.nextId) with
    | error e => simp [upload_file, hg]
    | ok response =>
      simp only [upload_file, hg, delete_file]
      rw [List.length_erase_of_mem hmem, List.length_append]
      simp

/-- C2 fails on the code: the readiness loop of
`generate_paper_summary_ochiai_text_formula` never re-queries the attachment
status — its body only sleeps — so from a PROCESSING snapshot it never
terminates, however many 5-second iterations are allowed, even if the remote
capability would have reported the file ready. -/
theorem c2_never_requeries (fuel : Nat) : brokenPollLoop fuel ("PROCESSING") = none := by
  induction fuel with
  | zero => rfl
  | succ n ih => simpa [brokenPollLoop] using ih

/-- C3 fails on the code: for the concrete Text+Remote run `c3_run` over N = 2
artifacts, both are uploaded (two fresh handles were acquired), but the
constructed request references exactly 1 uploaded file — not 2 — and after the
run one of the two handles is still held (only the last upload was released). -/
theorem c3_only_last_attached :
    c3_run.state.nextId = 2
    ∧ (c3_run.request.map (fun ps => ps.countP isFilePart)) = some 1
    ∧ c3_run.state.uploaded = [0] :=
  ⟨rfl, rfl, rfl⟩

theorem explanation_loop_ok (explain : Artifact → List Char → List Char) (heading : List Char)
    (t : List Char) (l : List Artifact) (i : Nat) :
    ∃ txt gal, explanation_loop explain heading (some t) l i = Except.ok (txt, gal) := by
  induction l generalizing i with
  | nil => exact ⟨[], [], rfl⟩
  | cons d rest ih =>
    obtain ⟨txt, gal, hx⟩ := ih (i + 1)
    refine ⟨entry_text heading i d.base64 (explain d t) ++ txt, (d, explain d t) :: gal, ?_⟩
    simp [explanation_loop, deref, hx]

theorem explanation_section_ok_ne (processing_mode : List Char) (fd gd : List Artifact)
    (t : List Char) (eF eI : Artifact → List Char → List Char)
    (hm : ¬(processing_mode = ("text_only".toList))) :
    ∃ txt gal, explanation_section processing_mode fd gd (some t) eF eI = Except.ok (txt, gal)
      ∧ ¬(txt = []) := by
  obtain ⟨ftxt, fgal, hf⟩ := explanation_loop_ok eF ("数式画像".toList) t fd 0
  by_cases hfo : processing_mode = ("formula_only".toList)
  · refine ⟨formula_section_header ++ ftxt, fgal, ?_, ?_⟩
    · simp at hf
      simp [explanation_section, hm, hfo, hf]
    · intro hcontra
      exact absurd (List.append_eq_nil.mp hcontra).1 (by decide)
  · obtain ⟨itxt, igal, hi⟩ := explanation_loop_ok eI ("画像".toList) t gd 0
    refine ⟨(formula_section_header ++ ftxt) ++ (figure_section_header ++ itxt), fgal ++ igal, ?_, ?_⟩
    · simp at hf hi hm hfo
      simp [explanation_section, hm, hfo, hf, hi]
    · intro hcontra
      exact absurd (List.append_eq_nil.mp (List.append_eq_nil.mp hcontra).1).1 (by decide)

theorem explanation_section_none_cases (processing_mode : List Char) (fd gd : List Artifact)
    (eF eI : Artifact → List Char → List Char) :
    (∃ p, explanation_section processing_mode fd gd none eF eI = Except.ok p)
    ∨ explanation_section processing_mode fd gd none eF eI
        = Except.error (PyError.unboundLocal ("pdf_text")) := by
  by_cases hm : processing_mode = ("text_only".toList)
  · exact Or.inl ⟨([], []), by simp [explanation_section, hm]⟩
  · cases fd with
    | cons d rest =>
      refine Or.inr ?_
      unfold explanation_section
      rw [if_neg hm]
      rfl
    | nil =>
      by_cases hfo : processing_mode = ("formula_only".toList)
      · refine Or.inl ⟨(formula_section_header, []), ?_⟩
        unfold explanation_section
        rw [if_neg hm]
        show (if processing_mode ≠ ("formula_only".toList) then _ else
            Except.ok (formula_section_header ++ [], [])) = _
        rw [if_neg (fun hc => hc hfo), List.append_nil]
      · cases gd with
        | nil =>
          refine Or.inl ⟨((formula_section_header ++ []) ++ (figure_section_header ++ []), []), ?_⟩
          unfold explanation_section
          rw [if_neg hm]
          show (if processing_mode ≠ ("formula_only".toList) then
              Except.ok ((formula_section_header ++ []) ++ (figure_section_header ++ []), [] ++ [])
            else _) = _
          rw [if_pos hfo]
          rfl
        | cons d rest =>
          refine Or.inr ?_
          unfold explanation_section
          rw [if_neg hm]
          show (if processing_mode ≠ ("formula_only".toList) then
              (match explanation_loop eI ("画像".toList) none (d :: rest) 0 with
               | Except.error e => Except.error e
               | Except.ok (itxt, igal) =>
                 Except.ok ((formula_section_header ++ []) ++ (figure_section_header ++ itxt), [] ++ igal))
            else Except.ok (formula_section_header ++ [], [])) = _
          rw [if_pos hfo]
          rfl

/-- C4 fails on the code: a `paper_reader` run with processing mode
"formula_only" over a PDF in which the formula detector would report 2 regions
produces zero explanation entries (an empty gallery and a report that is just
the formula-section header, with no figure/table section either): the
extraction guard at src/app.py line 505 never runs `extract_formulas` for this
mode, even though the docstring (line 489) lists the mode as valid and line 546
special-cases it. -/
theorem c4_formula_only_yields_zero_entries :
    (paper_reader ("formula_only".toList) ("body_text-gemini".toList) none ("x".toList)
        c4_inputs).map (fun r => (r.gallery.length, r.explaination_text))
      = Except.ok (0, formula_section_header) := by
  rfl

/-- C8 fails as stated: a run of mode "all" in which zero regions were detected
still writes the second markdown file (the report is the two bare section
headers, which is non-empty), and that file is named with the source's spelling
`explaination_<name>.md`, not `explanation_<name>.md`. -/
theorem c8_counterexample :
    ((paper_reader ("all".toList) ("body_text-gemini".toList) none ("x".toList)
        c8_inputs).map (fun r => r.written_files)
      = Except.ok [("output/summary_x.md".toList), ("output/explaination_x.md".toList)])
    ∧ ¬(("output/explaination_x.md".toList) = ("output/explanation_x.md".toList)) :=
  ⟨rfl, by decide⟩

/-- C8 (amended): a completed text-body run persists `summary_<name>.md`
always, and persists the explanation report as `explaination_<name>.md` exactly
when the processing mode is not "text_only" — the report text is empty only in
that mode, so a zero-region run in any other mode still writes a header-only
report file. -/
theorem c8_amended (processing_mode pdf_name : List Char) (pdf_file : Option (List Char))
    (inp : PaperReaderInputs) :
    (paper_reader processing_mode ("body_text-gemini".toList) pdf_file pdf_name inp).map
        (fun r => r.written_files)
      = Except.ok ([summary_file_name pdf_name]
          ++ (if processing_mode = ("text_only".toList) then []
              else [explaination_file_name pdf_name])) := by
  have hsplit : splitDash ("body_text-gemini".toList)
      = (("body_text".toList), ("gemini".toList)) := by decide
  by_cases hm : processing_mode = ("text_only".toList)
  · subst hm
    rfl
  · obtain ⟨txt, gal, hsec, hne⟩ :=
      explanation_section_ok_ne processing_mode
        (if processing_mode = ("all".toList) ∨ processing_mode = ("text_formula".toList)
         then inp.detected_formulas else [])
        inp.detected_figures inp.extracted_text inp.explain_formula inp.explain_image hm
    simp at hsplit hsec hm
    simp +decide [paper_reader, hsplit, deref, Except.map, hsec, hne, hm]

/-- C9: the Region Extractor's padding profiles are exactly those of the source
(figure/table: left 5, right 10, top 15, bottom 5; formula: 5 on every edge),
and for every region box the figure/table profile pads strictly wider on the
right and on the top than the formula profile. -/
theorem c9_padding_profiles (r : Rect) :
    figure_table_padding = ⟨5, 10, 15, 5⟩ ∧ formula_padding = ⟨5, 5, 5, 5⟩
    ∧ (padRect formula_padding r).x2 < (padRect figure_table_padding r).x2
    ∧ (padRect figure_table_padding r).y1 < (padRect formula_padding r).y1 := by
  refine ⟨rfl, rfl, ?_, ?_⟩ <;> simp [padRect, figure_table_padding, formula_padding]

/-- C10: for every run whose body mode is "body_image-gemini", only the image
branch assigns a body variable, so `pdf_text` stays unbound while the
explanation loops (for non-text_only modes with regions) and the unconditional
read in the return statement dereference it: `paper_reader` always raises
UnboundLocalError for `pdf_text` instead of returning its tuple. -/
theorem c10_unbound_pdf_text (processing_mode pdf_name : List Char)
    (pdf_file : Option (List Char)) (inp : PaperReaderInputs) :
    paper_reader processing_mode ("body_image-gemini".toList) pdf_file pdf_name inp
      = Except.error (PyError.unboundLocal ("pdf_text")) := by
  have hsplit : splitDash ("body_image-gemini".toList)
      = (("body_image".toList), ("gemini".toList)) := by decide
  rcases explanation_section_none_cases processing_mode
      (if processing_mode = ("all".toList) ∨ processing_mode = ("text_formula".toList)
       then inp.detected_formulas else [])
      inp.detected_figures inp.explain_formula inp.explain_image with ⟨⟨p1, p2⟩, hp⟩ | hp
  · simp at hsplit hp
    simp +decide [paper_reader, hsplit, deref, Except.map, hp]
  · simp at hsplit hp
    simp +decide [paper_reader, hsplit, deref, Except.map, hp]
